/-
Verification of the Smart-Poultry simulation core (src/main.py, src/server.py).

The Python source is shallowly embedded below:
* `FarmState` mirrors the fields of the `FarmState` class (sensor quantities as
  rationals, actuator booleans, the lazily-created alert latches as explicit
  boolean fields initialised to `false`).
* `FarmState.update` mirrors `FarmState.update`: each `random.uniform` draw and
  each `math.sin` value is an explicit parameter (`UpdNoise`), since the code is
  deterministic given the random stream.
* `FarmState.automation_agent` mirrors `FarmState.automation_agent`; the four
  control sections of the Python function are embedded as `lightControl`,
  `fanControl`, `pumpControl` and `feedControl`, composed in the source order,
  with the emitted events collected in an explicit list.
* `scan_hotspots` mirrors `RadarSystem.scan_hotspots`: grid counting, the three
  fixed demo hotspots, and the per-cell record construction (the per-cell
  `random.uniform(0, 20)` intensity noise is an explicit parameter).
* `Chicken.move` mirrors `Chicken.move`, with `math.cos`/`math.sin`/`math.pi`
  abstracted as a `Trig` record of rational-valued functions and the retarget
  draws as explicit parameters.
* `simTick` mirrors the order of operations in one iteration of the
  `run_simulation` main loop.
* `update_sensor_data` mirrors the Flask `/update-sensor` handler of
  src/server.py, with the stored dict as an association list.
-/
import Mathlib

/-- An activity event `(title, detail, color)` as appended by
`FarmState.automation_agent`. -/
abbrev Event := String × String × String

/-- The simulation state of the `FarmState` class: sensor readings, actuator
flags, the tick counter and the four one-time alert latches (created lazily by
`hasattr` in the source, embedded here as fields initialised to `false`). -/
structure FarmState where
  temperature : ℚ
  light : ℚ
  water_level : ℚ
  feed_level : ℚ
  pump : Bool
  fan : Bool
  light_on : Bool
  time : ℕ
  light_alert_sent : Bool
  temp_alert_sent : Bool
  water_alert_sent : Bool
  feed_alert_sent : Bool
deriving DecidableEq, Repr

/-- The state constructed by `FarmState.__init__` (latches as after their lazy
initialisation to `False` on the first `automation_agent` call). -/
def initFarm : FarmState :=
  { temperature := 26, light := 320, water_level := 85, feed_level := 75,
    pump := false, fan := false, light_on := false, time := 0,
    light_alert_sent := false, temp_alert_sent := false,
    water_alert_sent := false, feed_alert_sent := false }

/-- One tick's worth of random draws and sinusoid values used by
`FarmState.update`: `sin60` stands for `math.sin(time/60)`, `sin100` for
`math.sin(time/100)`, the rest for the `random.uniform` draws in source order. -/
structure UpdNoise where
  sin60 : ℚ
  rAmb : ℚ
  rFanCool : ℚ
  sin100 : ℚ
  rLight : ℚ
  rLightN : ℚ
  rPump : ℚ
  rFeed : ℚ

/-- Embedding of `FarmState.update` (src/main.py lines 115-149; the history
recording of lines 151-161 touches no sensor field and is not modelled). -/
def FarmState.update (s : FarmState) (u : UpdNoise) : FarmState :=
  let temperature :=
    if s.fan then s.temperature - u.rFanCool
    else s.temperature + (u.sin60 * (3/10) + u.rAmb)
  let light :=
    if s.light_on then s.light + u.rLight
    else s.light + ((u.sin100 * 100) * (2/100) + u.rLightN)
  let evap_rate : ℚ := 1/10 + (5/100) * max 0 ((temperature - 25) / 10)
  let water_level :=
    if s.pump then s.water_level + u.rPump else s.water_level - evap_rate
  let feed_level := s.feed_level - u.rFeed
  { s with
    time := s.time + 1
    temperature := max 15 (min 40 temperature)
    light := max 0 (min 600 light)
    water_level := max 0 (min 100 water_level)
    feed_level := max 0 (min 100 feed_level) }

/-- The "Light Control" section of `automation_agent` (lines 178-184). -/
def lightControl (s : FarmState) : FarmState × List Event :=
  if s.light ≤ 350 ∧ s.light_on = false then
    ({ s with light_on := true }, [("Light", "Activated", "yellow")])
  else if 550 ≤ s.light ∧ s.light_on = true then
    ({ s with light_on := false }, [("Light", "Deactivated", "yellow")])
  else (s, [])

/-- The "Temperature Control" section of `automation_agent` (lines 186-196). -/
def fanControl (s : FarmState) : FarmState × List Event :=
  if 27 ≤ s.temperature ∧ s.fan = false then
    if s.temp_alert_sent = false then
      ({ s with fan := true, temp_alert_sent := true }, [("Fan", "Activated", "red")])
    else ({ s with fan := true }, [])
  else if s.temperature ≤ 15 ∧ s.fan = true then
    if s.temp_alert_sent = true then
      ({ s with fan := false, temp_alert_sent := false }, [("Fan", "Deactivated", "green")])
    else ({ s with fan := false }, [])
  else (s, [])

/-- The "Water Pump Control" section of `automation_agent` (lines 198-208). -/
def pumpControl (s : FarmState) : FarmState × List Event :=
  if s.water_level < 50 ∧ s.pump = false then
    if s.water_alert_sent = false then
      ({ s with pump := true, water_alert_sent := true }, [("Pump", "Activated", "blue")])
    else ({ s with pump := true }, [])
  else if 90 ≤ s.water_level ∧ s.pump = true then
    if s.water_alert_sent = true then
      ({ s with pump := false, water_alert_sent := false }, [("Pump", "Deactivated", "blue")])
    else ({ s with pump := false }, [])
  else (s, [])

/-- The "Feed Alert" section of `automation_agent` (lines 210-215). -/
def feedControl (s : FarmState) : FarmState × List Event :=
  if s.feed_level < 20 ∧ s.feed_alert_sent = false then
    ({ s with feed_alert_sent := true }, [("Feed", "Low Feed Alert", "red")])
  else if 30 < s.feed_level ∧ s.feed_alert_sent = true then
    ({ s with feed_alert_sent := false }, [])
  else (s, [])

/-- Embedding of `FarmState.automation_agent` (lines 163-219): the four control
sections run in source order on the evolving state; the `events` list collects
their appended events in order.  (The notification of `events[0]` and the
device-state push of lines 217-241 transmit but do not change this state.) -/
def FarmState.automation_agent (s : FarmState) : FarmState × List Event :=
  let r1 := lightControl s
  let r2 := fanControl r1.1
  let r3 := pumpControl r2.1
  let r4 := feedControl r3.1
  (r4.1, r1.2 ++ r2.2 ++ r3.2 ++ r4.2)

section ControlLemmas

variable (s : FarmState)

@[simp] lemma lightControl_temperature : (lightControl s).1.temperature = s.temperature := by
  unfold lightControl; split_ifs <;> rfl

@[simp] lemma lightControl_light : (lightControl s).1.light = s.light := by
  unfold lightControl; split_ifs <;> rfl

@[simp] lemma lightControl_water : (lightControl s).1.water_level = s.water_level := by
  unfold lightControl; split_ifs <;> rfl

@[simp] lemma lightControl_feed : (lightControl s).1.feed_level = s.feed_level := by
  unfold lightControl; split_ifs <;> rfl

@[simp] lemma lightControl_fan : (lightControl s).1.fan = s.fan := by
  unfold lightControl; split_ifs <;> rfl

@[simp] lemma lightControl_pump : (lightControl s).1.pump = s.pump := by
  unfold lightControl; split_ifs <;> rfl

@[simp] lemma lightControl_temp_alert : (lightControl s).1.temp_alert_sent = s.temp_alert_sent := by
  unfold lightControl; split_ifs <;> rfl

@[simp] lemma fanControl_temperature : (fanControl s).1.temperature = s.temperature := by
  unfold fanControl; split_ifs <;> rfl

@[simp] lemma fanControl_light : (fanControl s).1.light = s.light := by
  unfold fanControl; split_ifs <;> rfl

@[simp] lemma fanControl_water : (fanControl s).1.water_level = s.water_level := by
  unfold fanControl; split_ifs <;> rfl

@[simp] lemma fanControl_feed : (fanControl s).1.feed_level = s.feed_level := by
  unfold fanControl; split_ifs <;> rfl

@[simp] lemma fanControl_pump : (fanControl s).1.pump = s.pump := by
  unfold fanControl; split_ifs <;> rfl

@[simp] lemma pumpControl_temperature : (pumpControl s).1.temperature = s.temperature := by
  unfold pumpControl; split_ifs <;> rfl

@[simp] lemma pumpControl_light : (pumpControl s).1.light = s.light := by
  unfold pumpControl; split_ifs <;> rfl

@[simp] lemma pumpControl_water : (pumpControl s).1.water_level = s.water_level := by
  unfold pumpControl; split_ifs <;> rfl

@[simp] lemma pumpControl_feed : (pumpControl s).1.feed_level = s.feed_level := by
  unfold pumpControl; split_ifs <;> rfl

@[simp] lemma pumpControl_fan : (pumpControl s).1.fan = s.fan := by
  unfold pumpControl; split_ifs <;> rfl

@[simp] lemma feedControl_temperature : (feedControl s).1.temperature = s.temperature := by
  unfold feedControl; split_ifs <;> rfl

@[simp] lemma feedControl_light : (feedControl s).1.light = s.light := by
  unfold feedControl; split_ifs <;> rfl

@[simp] lemma feedControl_water : (feedControl s).1.water_level = s.water_level := by
  unfold feedControl; split_ifs <;> rfl

@[simp] lemma feedControl_feed : (feedControl s).1.feed_level = s.feed_level := by
  unfold feedControl; split_ifs <;> rfl

@[simp] lemma feedControl_fan : (feedControl s).1.fan = s.fan := by
  unfold feedControl; split_ifs <;> rfl

@[simp] lemma feedControl_pump : (feedControl s).1.pump = s.pump := by
  unfold feedControl; split_ifs <;> rfl

end ControlLemmas

/-- `C1`: on the concrete reading (temperature 28, light 400, water 45,
feed 15) with all actuators and latches off, `automation_agent` turns the fan
and the pump on, leaves the light off, and the event list is exactly
Fan-Activated, Pump-Activated, Feed-Low-Alert in that order, so its first
element is `("Fan", "Activated", "red")`. -/
theorem C1_concrete_scenario :
    (FarmState.automation_agent
      { initFarm with temperature := 28, light := 400, water_level := 45, feed_level := 15 }).1.fan
        = true
    ∧ (FarmState.automation_agent
      { initFarm with temperature := 28, light := 400, water_level := 45, feed_level := 15 }).1.pump
        = true
    ∧ (FarmState.automation_agent
      { initFarm with temperature := 28, light := 400, water_level := 45, feed_level := 15 }).1.light_on
        = false
    ∧ (FarmState.automation_agent
      { initFarm with temperature := 28, light := 400, water_level := 45, feed_level := 15 }).2
        = [("Fan", "Activated", "red"), ("Pump", "Activated", "blue"),
           ("Feed", "Low Feed Alert", "red")] := by
  decide

section PumpHysteresis

/-- If the pump is on and the water level is anywhere below the 90 % off
threshold, the pump section leaves the pump on. -/
lemma pumpControl_stays_on (s : FarmState) (hp : s.pump = true)
    (hw : s.water_level < 90) : (pumpControl s).1.pump = true := by
  have hA : ¬(s.water_level < 50 ∧ s.pump = false) := by
    rintro ⟨_, h⟩; rw [hp] at h; cases h
  have hC : ¬(90 ≤ s.water_level ∧ s.pump = true) := by
    rintro ⟨h90, _⟩; linarith
  unfold pumpControl
  rw [if_neg hA, if_neg hC]
  exact hp

/-- If the pump is off and the water level is below the 50 % on threshold,
the pump section turns the pump on. -/
lemma pumpControl_turns_on (s : FarmState) (hp : s.pump = false)
    (hw : s.water_level < 50) : (pumpControl s).1.pump = true := by
  unfold pumpControl
  rw [if_pos ⟨hw, hp⟩]
  split_ifs <;> rfl

/-- Through a whole `automation_agent` step the pump stays on while the water
level is below 90 %. -/
lemma automation_pump_stays_on (s : FarmState) (hp : s.pump = true)
    (hw : s.water_level < 90) : (FarmState.automation_agent s).1.pump = true := by
  simp only [FarmState.automation_agent, feedControl_pump]
  exact pumpControl_stays_on _ (by simp [hp]) (by simp [hw])

/-- A whole `automation_agent` step turns the pump on when it is off and the
water level is below 50 %. -/
lemma automation_pump_turns_on (s : FarmState) (hp : s.pump = false)
    (hw : s.water_level < 50) : (FarmState.automation_agent s).1.pump = true := by
  simp only [FarmState.automation_agent, feedControl_pump]
  exact pumpControl_turns_on _ (by simp [hp]) (by simp [hw])

/-- Feeding a sequence of water-level inputs to the automation: each step sets
`water_level` to the next input and runs `automation_agent`
(as `FarmState.update` would set it from the environment). -/
def pumpSteps (s : FarmState) (ws : List ℚ) : FarmState :=
  ws.foldl (fun st w => (FarmState.automation_agent { st with water_level := w }).1) s

lemma pumpSteps_stays_on : ∀ (ws : List ℚ) (s : FarmState), s.pump = true →
    (∀ w ∈ ws, 49 ≤ w ∧ w ≤ 89) → (pumpSteps s ws).pump = true := by
  intro ws
  induction ws with
  | nil => intro s hp _; exact hp
  | cons w t ih =>
    intro s hp hws
    have hstep : (FarmState.automation_agent { s with water_level := w }).1.pump = true := by
      have hw90 : ({ s with water_level := w } : FarmState).water_level < 90 := by
        have := (hws w (List.mem_cons_self w t)).2
        show w < 90
        linarith
      exact automation_pump_stays_on { s with water_level := w } hp hw90
    exact ih _ hstep (fun w' hw' => hws w' (List.mem_cons_of_mem _ hw'))

end PumpHysteresis

/-- `C2`: pump hysteresis.  If the pump is off at water level 49 it turns on in
one step; after that, running any number of further steps whose water-level
inputs stay in `[49, 89]` keeps the pump on; and in general no single
`automation_agent` step turns an ON pump off while the water level is
below 90. -/
theorem C2_pump_hysteresis (s : FarmState) (ws : List ℚ)
    (hp : s.pump = false) (hw : s.water_level = 49)
    (hws : ∀ w ∈ ws, 49 ≤ w ∧ w ≤ 89) :
    (FarmState.automation_agent s).1.pump = true
    ∧ (pumpSteps (FarmState.automation_agent s).1 ws).pump = true
    ∧ ∀ t : FarmState, t.pump = true → t.water_level < 90 →
        (FarmState.automation_agent t).1.pump = true := by
  have h1 : (FarmState.automation_agent s).1.pump = true :=
    automation_pump_turns_on s hp (by rw [hw]; norm_num)
  exact ⟨h1, pumpSteps_stays_on ws _ h1 hws,
    fun t htp htw => automation_pump_stays_on t htp htw⟩

/-- Witness for `C2`: pump off at water level 49, then inputs 49, 89, 60. -/
theorem C2_pump_hysteresis_witness :
    (FarmState.automation_agent { initFarm with water_level := 49 }).1.pump = true
    ∧ (pumpSteps (FarmState.automation_agent { initFarm with water_level := 49 }).1
        [49, 89, 60]).pump = true
    ∧ (FarmState.automation_agent { initFarm with pump := true, water_level := 89 }).1.pump
        = true := by
  have h := C2_pump_hysteresis { initFarm with water_level := 49 } [49, 89, 60]
    rfl rfl (by decide)
  exact ⟨h.1, h.2.1, h.2.2 { initFarm with pump := true, water_level := 89 } rfl (by norm_num)⟩

section FanEdgeTrigger

/-- The number of `("Fan", "Activated", "red")` entries in an event list. -/
def countFanEvt (l : List Event) : ℕ :=
  (l.filter fun e => decide (e = ("Fan", "Activated", "red"))).length

@[simp] lemma countFanEvt_nil : countFanEvt [] = 0 := rfl

@[simp] lemma countFanEvt_append (a b : List Event) :
    countFanEvt (a ++ b) = countFanEvt a + countFanEvt b := by
  simp [countFanEvt, List.filter_append]

@[simp] lemma countFanEvt_single : countFanEvt [("Fan", "Activated", "red")] = 1 := rfl

@[simp] lemma countFanEvt_cons_fan (l : List Event) :
    countFanEvt (("Fan", "Activated", "red") :: l) = countFanEvt l + 1 := by
  simp [countFanEvt, List.filter_cons]

@[simp] lemma countFanEvt_lightControl (s : FarmState) :
    countFanEvt (lightControl s).2 = 0 := by
  unfold lightControl; split_ifs <;> rfl

@[simp] lemma countFanEvt_pumpControl (s : FarmState) :
    countFanEvt (pumpControl s).2 = 0 := by
  unfold pumpControl; split_ifs <;> rfl

@[simp] lemma countFanEvt_feedControl (s : FarmState) :
    countFanEvt (feedControl s).2 = 0 := by
  unfold feedControl; split_ifs <;> rfl

/-- With the fan already on and the temperature at or above 27 the fan section
does nothing: no transition, no event. -/
lemma fanControl_hot_on (s : FarmState) (hf : s.fan = true)
    (ht : 27 ≤ s.temperature) : fanControl s = (s, []) := by
  unfold fanControl
  rw [if_neg, if_neg]
  · rintro ⟨h1, h2⟩; linarith
  · rintro ⟨_, h2⟩; simp [h2] at hf

/-- With the fan off, the latch clear and temperature at or above 27 the fan
section turns the fan on, sets the latch and emits exactly the one
`("Fan", "Activated", "red")` event. -/
lemma fanControl_turns_on (s : FarmState) (hf : s.fan = false)
    (ha : s.temp_alert_sent = false) (ht : 27 ≤ s.temperature) :
    fanControl s = ({ s with fan := true, temp_alert_sent := true },
      [("Fan", "Activated", "red")]) := by
  unfold fanControl
  rw [if_pos ⟨ht, hf⟩, if_pos ha]

/-- One `automation_agent` step with the fan already on and temperature ≥ 27:
the fan stays on and no fan-activation event is emitted. -/
lemma automation_fan_steady (s : FarmState) (hf : s.fan = true)
    (ht : 27 ≤ s.temperature) :
    (FarmState.automation_agent s).1.fan = true
    ∧ countFanEvt (FarmState.automation_agent s).2 = 0 := by
  simp only [FarmState.automation_agent]
  have hfan : fanControl (lightControl s).1 = ((lightControl s).1, []) :=
    fanControl_hot_on _ (by simp [hf]) (by simp [ht])
  rw [hfan]
  constructor
  · simp [hf]
  · simp

/-- One `automation_agent` step with the fan off, the latch clear and
temperature ≥ 27: the fan turns on and exactly one
`("Fan", "Activated", "red")` event is emitted. -/
lemma automation_fan_first (s : FarmState) (hf : s.fan = false)
    (ha : s.temp_alert_sent = false) (ht : 27 ≤ s.temperature) :
    (FarmState.automation_agent s).1.fan = true
    ∧ countFanEvt (FarmState.automation_agent s).2 = 1 := by
  simp only [FarmState.automation_agent]
  have hfan : fanControl (lightControl s).1
      = ({ (lightControl s).1 with fan := true, temp_alert_sent := true },
         [("Fan", "Activated", "red")]) :=
    fanControl_turns_on _ (by simp [hf]) (by simp [ha]) (by simp [ht])
  rw [hfan]
  constructor
  · simp
  · simp

/-- One simulated automation tick of the `C3` experiment: force the measured
temperature to `t` (as `FarmState.update` would) and run `automation_agent`,
accumulating the emitted events. -/
def tempStep (p : FarmState × List Event) (t : ℚ) : FarmState × List Event :=
  let r := FarmState.automation_agent { p.1 with temperature := t }
  (r.1, p.2 ++ r.2)

/-- Run `automation_agent` once per listed temperature, collecting all events. -/
def automationSteps (s : FarmState) (temps : List ℚ) : FarmState × List Event :=
  temps.foldl tempStep (s, [])

lemma automationSteps_steady : ∀ (temps : List ℚ) (s : FarmState) (acc : List Event),
    s.fan = true → (∀ t ∈ temps, 27 ≤ t) →
    countFanEvt (temps.foldl tempStep (s, acc)).2 = countFanEvt acc := by
  intro temps
  induction temps with
  | nil => intro s acc _ _; rfl
  | cons t ts ih =>
    intro s acc hf hts
    have hstep := automation_fan_steady { s with temperature := t } (by simp [hf])
      (by simpa using hts t (List.mem_cons_self t ts))
    simp only [List.foldl_cons]
    rw [show tempStep (s, acc) t
        = ((FarmState.automation_agent { s with temperature := t }).1,
           acc ++ (FarmState.automation_agent { s with temperature := t }).2) from rfl]
    rw [ih _ _ hstep.1 (fun t' ht' => hts t' (List.mem_cons_of_mem _ ht'))]
    simp [hstep.2]

end FanEdgeTrigger

/-- `C3`: fan events are edge-triggered.  Starting from fan off with the
temperature latch clear, ten consecutive automation ticks whose measured
temperatures are all ≥ 27 emit the `("Fan", "Activated", "red")` event exactly
once in total (on the first tick). -/
theorem C3_fan_edge_triggered (s : FarmState) (temps : List ℚ)
    (hf : s.fan = false) (ha : s.temp_alert_sent = false)
    (hlen : temps.length = 10) (hts : ∀ t ∈ temps, 27 ≤ t) :
    countFanEvt (automationSteps s temps).2 = 1
    ∧ countFanEvt (automationSteps s (temps.take 1)).2 = 1 := by
  cases temps with
  | nil => simp at hlen
  | cons t ts =>
    have hfirst := automation_fan_first { s with temperature := t } (by simp [hf])
      (by simp [ha]) (by simpa using hts t (List.mem_cons_self t ts))
    have hone : countFanEvt (tempStep (s, []) t).2 = 1 := by
      rw [show tempStep (s, []) t
          = ((FarmState.automation_agent { s with temperature := t }).1,
             [] ++ (FarmState.automation_agent { s with temperature := t }).2) from rfl]
      simp [hfirst.2]
    constructor
    · unfold automationSteps
      simp only [List.foldl_cons]
      rw [show tempStep (s, []) t
          = ((FarmState.automation_agent { s with temperature := t }).1,
             [] ++ (FarmState.automation_agent { s with temperature := t }).2) from rfl]
      rw [automationSteps_steady ts _ _ hfirst.1
        (fun t' ht' => hts t' (List.mem_cons_of_mem _ ht'))]
      simp [hfirst.2]
    · simpa [automationSteps] using hone

/-- Witness for `C3`: ten ticks at temperature 30 from the initial state. -/
theorem C3_fan_edge_triggered_witness :
    countFanEvt (automationSteps initFarm (List.replicate 10 30)).2 = 1
    ∧ countFanEvt (automationSteps initFarm ((List.replicate 10 30).take 1)).2 = 1 :=
  C3_fan_edge_triggered initFarm (List.replicate 10 30) rfl rfl (by decide) (by decide)

/-- Both clamp bounds, for the `max lo (min hi x)` pattern of the source. -/
lemma clamp_mem (lo hi x : ℚ) (h : lo ≤ hi) :
    lo ≤ max lo (min hi x) ∧ max lo (min hi x) ≤ hi :=
  ⟨le_max_left _ _, max_le h (min_le_left _ _)⟩

/-- `C4`: clamping invariant.  After every `FarmState.update` — whatever the
prior state and whatever the random draws — temperature lies in `[15, 40]`,
light in `[0, 600]`, water and feed levels in `[0, 100]`; and an
`automation_agent` step never changes any of these four sensor fields, so the
bounds persist through the rest of the tick. -/
theorem C4_clamping_invariant (s : FarmState) (u : UpdNoise) :
    (15 ≤ (s.update u).temperature ∧ (s.update u).temperature ≤ 40
      ∧ 0 ≤ (s.update u).light ∧ (s.update u).light ≤ 600
      ∧ 0 ≤ (s.update u).water_level ∧ (s.update u).water_level ≤ 100
      ∧ 0 ≤ (s.update u).feed_level ∧ (s.update u).feed_level ≤ 100)
    ∧ ((FarmState.automation_agent s).1.temperature = s.temperature
      ∧ (FarmState.automation_agent s).1.light = s.light
      ∧ (FarmState.automation_agent s).1.water_level = s.water_level
      ∧ (FarmState.automation_agent s).1.feed_level = s.feed_level) := by
  constructor
  · have ht := clamp_mem 15 40 (if s.fan then s.temperature - u.rFanCool
      else s.temperature + (u.sin60 * (3/10) + u.rAmb)) (by norm_num)
    have hl := clamp_mem 0 600 (if s.light_on then s.light + u.rLight
      else s.light + ((u.sin100 * 100) * (2/100) + u.rLightN)) (by norm_num)
    simp only [FarmState.update]
    refine ⟨ht.1, ht.2, hl.1, hl.2, ?_, ?_, ?_, ?_⟩
    · exact (clamp_mem 0 100 _ (by norm_num)).1
    · exact (clamp_mem 0 100 _ (by norm_num)).2
    · exact (clamp_mem 0 100 _ (by norm_num)).1
    · exact (clamp_mem 0 100 _ (by norm_num)).2
  · simp [FarmState.automation_agent]

section Radar

/-- Pygame window width (src/main.py line 15). -/
def WIDTH : ℕ := 800

/-- Pygame window height (src/main.py line 15). -/
def HEIGHT : ℕ := 500

/-- Grid cell size used by `scan_hotspots` (line 45). -/
def grid_size : ℕ := 15

/-- `WIDTH // grid_size` (line 46). -/
def grid_width : ℕ := WIDTH / grid_size

/-- `HEIGHT // grid_size` (line 47). -/
def grid_height : ℕ := HEIGHT / grid_size

/-- Minimum chickens per cell to form a hotspot (line 38). -/
def hotspot_threshold : ℕ := 2

/-- A chicken of the `Chicken` class: position, heading (radians), speed and
the retarget step counter. -/
structure Chicken where
  x : ℚ
  y : ℚ
  direction : ℚ
  speed : ℚ
  step_timer : ℕ
  step_max : ℕ
deriving DecidableEq, Repr

/-- `min(int(coordinate // grid_size), limit)` as in lines 52-53 (simulation
positions are non-negative, being clamped into the arena by `Chicken.move`). -/
def gridIndex (q : ℚ) (limit : ℕ) : ℕ :=
  min (Int.toNat ⌊q / (grid_size : ℚ)⌋) limit

/-- The per-cell chicken counts of lines 48-54: a `grid_height × grid_width`
array of counters, incremented once per chicken at its clamped cell. -/
def chickenCounts (cs : List Chicken) : List (List ℕ) :=
  cs.foldl
    (fun g c =>
      let gx := gridIndex c.x (grid_width - 1)
      let gy := gridIndex c.y (grid_height - 1)
      g.set gy ((g.getD gy []).set gx ((g.getD gy []).getD gx 0 + 1)))
    (List.replicate grid_height (List.replicate grid_width 0))

/-- Read one cell counter (`chicken_counts[y][x]`). -/
def countAt (g : List (List ℕ)) (y x : ℕ) : ℕ := (g.getD y []).getD x 0

/-- A hotspot record as produced by `scan_hotspots`: percentage coordinates,
intensity and display name. -/
structure Hotspot where
  x : ℚ
  y : ℚ
  intensity : ℚ
  name : String
deriving DecidableEq, Repr

/-- The three fixed demo hotspots injected on every scan (lines 57-62). -/
def demoHotspots : List Hotspot :=
  [⟨25, 40, 75, "Feed Area"⟩, ⟨75, 60, 60, "Water Area"⟩, ⟨50, 30, 45, "Resting Zone"⟩]

/-- The name chosen for a measured hotspot (lines 79-87): the `f"Hotspot …"`
default is always overwritten by this if/elif chain. -/
def hotspotLabel (xp yp : ℚ) : String :=
  if xp < 30 then "Feed Area"
  else if 70 < xp then "Water Area"
  else if yp < 30 then "Resting Zone"
  else "Activity Zone"

/-- The measured hotspot record appended for a qualifying cell `(y, x)`
(lines 68-94); `noise y x` is that cell's `random.uniform(0, 20)` draw. -/
def mkHotspot (g : List (List ℕ)) (noise : ℕ → ℕ → ℚ) (yx : ℕ × ℕ) : Hotspot :=
  let center_x : ℚ := (yx.2 : ℚ) * (grid_size : ℚ) + ((grid_size / 2 : ℕ) : ℚ)
  let center_y : ℚ := (yx.1 : ℚ) * (grid_size : ℚ) + ((grid_size / 2 : ℕ) : ℚ)
  let xp := center_x / (WIDTH : ℚ) * 100
  let yp := center_y / (HEIGHT : ℚ) * 100
  { x := xp, y := yp,
    intensity := min 100 ((countAt g yx.1 yx.2 : ℚ) * 20 + noise yx.1 yx.2),
    name := hotspotLabel xp yp }

/-- The row-major cell traversal of the scan loop (lines 65-66). -/
def cellList : List (ℕ × ℕ) :=
  (List.range grid_height).flatMap fun y => (List.range grid_width).map fun x => (y, x)

/-- The per-cell loop of the scan (lines 65-94): walk the cells in row-major
order and append one record per cell whose count reaches the threshold. -/
def scanFold (g : List (List ℕ)) (noise : ℕ → ℕ → ℚ) (init : List Hotspot) :
    List Hotspot :=
  cellList.foldl
    (fun acc yx =>
      if hotspot_threshold ≤ countAt g yx.1 yx.2 then acc ++ [mkHotspot g noise yx]
      else acc)
    init

/-- Embedding of `RadarSystem.scan_hotspots` (lines 40-96): reset the list,
count chickens per grid cell, extend with the three demo hotspots, then run the
per-cell loop on top of them. -/
def scan_hotspots (cs : List Chicken) (noise : ℕ → ℕ → ℚ) : List Hotspot :=
  scanFold (chickenCounts cs) noise demoHotspots

/-- The measured (non-landmark) part of a scan: the same per-cell loop started
from the empty list instead of the demo hotspots. -/
def measuredHotspots (cs : List Chicken) (noise : ℕ → ℕ → ℚ) : List Hotspot :=
  scanFold (chickenCounts cs) noise []

/-- The conditional-append fold of the scan, over any cell list, equals the
initial list followed by a filter-and-map of the traversed cells. -/
lemma scanFold_loop (g : List (List ℕ)) (noise : ℕ → ℕ → ℚ) :
    ∀ (l : List (ℕ × ℕ)) (init : List Hotspot),
      l.foldl
        (fun acc yx =>
          if hotspot_threshold ≤ countAt g yx.1 yx.2 then acc ++ [mkHotspot g noise yx]
          else acc)
        init
      = init ++ (l.filter fun yx =>
          decide (hotspot_threshold ≤ countAt g yx.1 yx.2)).map (mkHotspot g noise) := by
  intro l
  induction l with
  | nil => intro init; simp
  | cons a t ih =>
    intro init
    by_cases h : hotspot_threshold ≤ countAt g a.1 a.2
    · simp only [List.foldl_cons, if_pos h, ih, List.filter_cons,
        decide_eq_true_eq, h, if_true, List.map_cons, List.append_assoc,
        List.singleton_append]
    · simp only [List.foldl_cons, if_neg h, ih, List.filter_cons,
        decide_eq_true_eq, h, if_false]

/-- The per-cell scan loop written as filter-and-map over the cells. -/
lemma scanFold_eq (g : List (List ℕ)) (noise : ℕ → ℕ → ℚ) (init : List Hotspot) :
    scanFold g noise init
      = init ++ (cellList.filter fun yx =>
          decide (hotspot_threshold ≤ countAt g yx.1 yx.2)).map (mkHotspot g noise) := by
  rw [scanFold]
  exact scanFold_loop g noise cellList init

/-- The measured part of the scan as filter-and-map. -/
lemma measuredHotspots_eq (cs : List Chicken) (noise : ℕ → ℕ → ℚ) :
    measuredHotspots cs noise
      = (cellList.filter fun yx =>
          decide (hotspot_threshold ≤ countAt (chickenCounts cs) yx.1 yx.2)).map
          (mkHotspot (chickenCounts cs) noise) := by
  rw [measuredHotspots, scanFold_eq, List.nil_append]

/-- The full scan is the demo hotspots followed by the measured ones. -/
lemma scan_hotspots_eq (cs : List Chicken) (noise : ℕ → ℕ → ℚ) :
    scan_hotspots cs noise = demoHotspots ++ measuredHotspots cs noise := by
  rw [scan_hotspots, measuredHotspots, scanFold_eq, scanFold_eq, List.nil_append]

end Radar

/-- `C6`: every scan, whatever the chicken positions and intensity noise,
returns a list beginning with exactly the three fixed synthetic landmarks —
Feed Area `(25, 40)` intensity 75, Water Area `(75, 60)` intensity 60, Resting
Zone `(50, 30)` intensity 45 — followed by the measured hotspots; the result is
a pure function of the current inputs, so nothing persists between calls. -/
theorem C6_landmarks_always_first (cs : List Chicken) (noise : ℕ → ℕ → ℚ) :
    scan_hotspots cs noise
      = ⟨25, 40, 75, "Feed Area"⟩ :: ⟨75, 60, 60, "Water Area"⟩
        :: ⟨50, 30, 45, "Resting Zone"⟩ :: measuredHotspots cs noise := by
  rw [scan_hotspots_eq, demoHotspots, List.cons_append, List.cons_append,
    List.cons_append, List.nil_append]

/-- Cell coordinates traversed by the scan are exactly the in-range ones. -/
lemma mem_cellList (y x : ℕ) :
    (y, x) ∈ cellList ↔ y < grid_height ∧ x < grid_width := by
  constructor
  · intro h
    simp only [cellList, List.mem_flatMap, List.mem_map, List.mem_range] at h
    obtain ⟨a, ha, b, hb, hab⟩ := h
    obtain ⟨rfl, rfl⟩ := Prod.mk.injEq .. ▸ hab
    exact ⟨ha, hb⟩
  · rintro ⟨hy, hx⟩
    simp only [cellList, List.mem_flatMap, List.mem_map, List.mem_range]
    exact ⟨y, hy, x, hx, rfl⟩

/-- All-zero intensity noise, a realizable value of `random.uniform(0, 20)`
rounding down; used for the concrete scan scenarios. -/
def zeroNoise : ℕ → ℕ → ℚ := fun _ _ => 0

/-- Two chickens standing together at `(247, 300)`: they land in grid cell
`(y, x) = (20, 16)` whose centre has `x`-percentage `30.875` — inside the left
third of the arena but not below the source's 30 % threshold. -/
def cs5x : List Chicken :=
  [⟨247, 300, 0, 1, 0, 60⟩, ⟨247, 300, 0, 1, 0, 60⟩]

/-- The measured-hotspot labelling rule as the claim words it: "Feed Area" in
the left third of the arena, "Water Area" in the right third, "Resting Zone" in
the top third, else "Activity Zone". -/
def specLabel (xp yp : ℚ) : String :=
  if xp < 100 / 3 then "Feed Area"
  else if 200 / 3 < xp then "Water Area"
  else if yp < 100 / 3 then "Resting Zone"
  else "Activity Zone"

/-- The count grid of the `cs5x` scenario: all zeros except cell `(20, 16)`,
which holds both chickens. -/
def g5 : List (List ℕ) :=
  (List.replicate grid_height (List.replicate grid_width 0)).set 20
    ((List.replicate grid_width 0).set 16 2)

lemma gridIndex_247 : gridIndex 247 (grid_width - 1) = 16 := by
  norm_num [gridIndex, grid_size, grid_width, WIDTH]
  decide

lemma gridIndex_300 : gridIndex 300 (grid_height - 1) = 20 := by
  norm_num [gridIndex, grid_size, grid_height, HEIGHT]
  decide

set_option maxRecDepth 4000 in
lemma counts_cs5x : chickenCounts cs5x = g5 := by
  simp only [chickenCounts, cs5x, List.foldl_cons, List.foldl_nil,
    gridIndex_247, gridIndex_300]
  decide

set_option maxRecDepth 4000 in
lemma measured_cs5x :
    measuredHotspots cs5x zeroNoise = [mkHotspot g5 zeroNoise (20, 16)] := by
  rw [measuredHotspots_eq, counts_cs5x]
  rw [show (cellList.filter fun yx =>
      decide (hotspot_threshold ≤ countAt g5 yx.1 yx.2)) = [(20, 16)] from by decide]
  rfl

lemma cs5x_code_label : (mkHotspot g5 zeroNoise (20, 16)).name = "Activity Zone" := by
  norm_num [mkHotspot, hotspotLabel, grid_size, WIDTH, HEIGHT]

lemma cs5x_spec_label :
    specLabel (mkHotspot g5 zeroNoise (20, 16)).x (mkHotspot g5 zeroNoise (20, 16)).y
      = "Feed Area" := by
  norm_num [mkHotspot, specLabel, grid_size, WIDTH, HEIGHT]

/-- `C5` counterexample: for the two chickens of `cs5x` the single measured
hotspot sits at `x`-percentage `30.875 < 33.33…`, i.e. in the left third, yet
the source labels it "Activity Zone", not "Feed Area" — the claim's
thirds-based labelling rule does not hold of the scan. -/
theorem C5_thirds_labelling_counterexample :
    ¬ ∀ h ∈ measuredHotspots cs5x zeroNoise, h.name = specLabel h.x h.y := by
  intro hAll
  have hm : mkHotspot g5 zeroNoise (20, 16) ∈ measuredHotspots cs5x zeroNoise := by
    rw [measured_cs5x]; exact List.mem_singleton_self _
  have hEq := hAll _ hm
  rw [cs5x_code_label, cs5x_spec_label] at hEq
  exact absurd hEq (by decide)

/-- `C5` (amended): every measured hotspot record comes from a cell with at
least `hotspot_threshold = 2` chickens and carries the cell centre in
percentage coordinates and intensity `min 100 (count*20 + noise)`, with the
label chosen by `x`-percentage < 30 → "Feed Area", > 70 → "Water Area", else
`y`-percentage < 30 → "Resting Zone", else "Activity Zone"; conversely every
cell meeting the threshold contributes its record.  (The claim's "third of the
arena" boundaries are in truth the 30 % and 70 % thresholds of
`hotspotLabel`.) -/
theorem C5_measured_hotspot_fields (cs : List Chicken) (noise : ℕ → ℕ → ℚ) :
    (∀ h ∈ measuredHotspots cs noise, ∃ y x,
        y < grid_height ∧ x < grid_width
        ∧ hotspot_threshold ≤ countAt (chickenCounts cs) y x
        ∧ h.x = ((x : ℚ) * (grid_size : ℚ) + ((grid_size / 2 : ℕ) : ℚ)) / (WIDTH : ℚ) * 100
        ∧ h.y = ((y : ℚ) * (grid_size : ℚ) + ((grid_size / 2 : ℕ) : ℚ)) / (HEIGHT : ℚ) * 100
        ∧ h.intensity = min 100 ((countAt (chickenCounts cs) y x : ℚ) * 20 + noise y x)
        ∧ h.name = hotspotLabel h.x h.y)
    ∧ ∀ y x, y < grid_height → x < grid_width →
        hotspot_threshold ≤ countAt (chickenCounts cs) y x →
        mkHotspot (chickenCounts cs) noise (y, x) ∈ measuredHotspots cs noise := by
  constructor
  · intro h hm
    rw [measuredHotspots_eq] at hm
    obtain ⟨yx, hyx, rfl⟩ := List.mem_map.mp hm
    obtain ⟨hcell, hq⟩ := List.mem_filter.mp hyx
    obtain ⟨y, x⟩ := yx
    obtain ⟨hy, hx⟩ := (mem_cellList y x).mp hcell
    exact ⟨y, x, hy, hx, of_decide_eq_true hq, rfl, rfl, rfl, rfl⟩
  · intro y x hy hx hq
    rw [measuredHotspots_eq]
    exact List.mem_map_of_mem _
      (List.mem_filter.mpr ⟨(mem_cellList y x).mpr ⟨hy, hx⟩, decide_eq_true hq⟩)

/-- Witness for `C5` (amended): cell `(20, 16)` of the `cs5x` scenario holds
two chickens, and its record is in the measured scan output. -/
theorem C5_measured_hotspot_fields_witness :
    mkHotspot (chickenCounts cs5x) zeroNoise (20, 16) ∈ measuredHotspots cs5x zeroNoise :=
  (C5_measured_hotspot_fields cs5x zeroNoise).2 20 16 (by decide) (by decide)
    (by rw [counts_cs5x]; decide)

/-- Two chickens standing together at `(89.5, 300)`, grid cell `(20, 5)`. -/
def cs10 : List Chicken :=
  [⟨89.5, 300, 0, 1, 0, 60⟩, ⟨89.5, 300, 0, 1, 0, 60⟩]

/-- The count grid of the `cs10` scenario: all zeros except cell `(20, 5)`. -/
def g10 : List (List ℕ) :=
  (List.replicate grid_height (List.replicate grid_width 0)).set 20
    ((List.replicate grid_width 0).set 5 2)

lemma gridIndex_895 : gridIndex (89.5 : ℚ) (grid_width - 1) = 5 := by
  norm_num [gridIndex, grid_size, grid_width, WIDTH]
  decide

set_option maxRecDepth 4000 in
lemma counts_cs10 : chickenCounts cs10 = g10 := by
  simp only [chickenCounts, cs10, List.foldl_cons, List.foldl_nil,
    gridIndex_895, gridIndex_300]
  decide

/-- `C10`: with every per-cell noise draw in `[0, 20)` — as `random.uniform(0, 20)`
guarantees — every measured hotspot of a scan has intensity in `[40, 100]`:
the qualifying count is at least 2, so `count*20 + noise ≥ 40`, and the `min`
caps it at 100. -/
theorem C10_measured_intensity_bounds (cs : List Chicken) (noise : ℕ → ℕ → ℚ)
    (hn : ∀ y x, 0 ≤ noise y x ∧ noise y x < 20) :
    ∀ h ∈ measuredHotspots cs noise, 40 ≤ h.intensity ∧ h.intensity ≤ 100 := by
  intro h hm
  rw [measuredHotspots_eq] at hm
  obtain ⟨yx, hyx, rfl⟩ := List.mem_map.mp hm
  have hq : hotspot_threshold ≤ countAt (chickenCounts cs) yx.1 yx.2 :=
    of_decide_eq_true (List.mem_filter.mp hyx).2
  have h2 : (2 : ℚ) ≤ (countAt (chickenCounts cs) yx.1 yx.2 : ℚ) := by
    exact_mod_cast hq
  have h0 := (hn yx.1 yx.2).1
  constructor
  · simp only [mkHotspot]
    refine le_min (by norm_num) ?_
    nlinarith
  · simp only [mkHotspot]
    exact min_le_left _ _

/-- Witness for `C10`: the measured hotspot of the `cs10` scenario with zero
noise has intensity between 40 and 100. -/
theorem C10_measured_intensity_bounds_witness :
    40 ≤ (mkHotspot (chickenCounts cs10) zeroNoise (20, 5)).intensity
    ∧ (mkHotspot (chickenCounts cs10) zeroNoise (20, 5)).intensity ≤ 100 :=
  C10_measured_intensity_bounds cs10 zeroNoise
    (fun y x => by constructor <;> norm_num [zeroNoise])
    (mkHotspot (chickenCounts cs10) zeroNoise (20, 5))
    (by
      rw [measuredHotspots_eq]
      exact List.mem_map_of_mem _
        (List.mem_filter.mpr ⟨(mem_cellList 20 5).mpr (by decide),
          decide_eq_true (by rw [counts_cs10]; decide)⟩))

section Motion

/-- Abstract interface for `math.cos`, `math.sin` and `math.pi`: the embedding
is parametric in the trigonometric oracle, since no claim depends on concrete
trigonometric values (floating-point trigonometry is not modelled exactly). -/
structure Trig where
  cos : ℚ → ℚ
  sin : ℚ → ℚ
  pi : ℚ

/-- The retarget draws of `Chicken.move` (lines 256-259): new direction
`uniform(0, 2π)`, new speed `uniform(0.5, 2)`, new dwell `randint(20, 60)`. -/
structure MoveRnd where
  newDirection : ℚ
  newSpeed : ℚ
  newStepMax : ℕ

/-- The heading actually used for this tick's displacement: the fresh draw if
the dwell timer expired, otherwise the current heading. -/
def effDir (c : Chicken) (r : MoveRnd) : ℚ :=
  if c.step_max ≤ c.step_timer + 1 then r.newDirection else c.direction

/-- The speed actually used for this tick's displacement. -/
def effSpeed (c : Chicken) (r : MoveRnd) : ℚ :=
  if c.step_max ≤ c.step_timer + 1 then r.newSpeed else c.speed

/-- Embedding of `Chicken.move` (src/main.py lines 253-267): advance the dwell
timer (retargeting direction and speed when it expires), integrate the heading,
clamp the position into `[80, WIDTH-80] × [220, HEIGHT-80]`, then reflect the
heading at the walls: `π - direction` at a vertical wall, negation at a
horizontal wall. -/
def Chicken.move (c : Chicken) (tr : Trig) (r : MoveRnd) : Chicken :=
  let t := c.step_timer + 1
  let d0 := if c.step_max ≤ t then r.newDirection else c.direction
  let sp := if c.step_max ≤ t then r.newSpeed else c.speed
  let t2 := if c.step_max ≤ t then 0 else t
  let sm := if c.step_max ≤ t then r.newStepMax else c.step_max
  let x1 := c.x + tr.cos d0 * sp
  let y1 := c.y + tr.sin d0 * sp
  let x2 := max 80 (min ((WIDTH : ℚ) - 80) x1)
  let y2 := max 220 (min ((HEIGHT : ℚ) - 80) y1)
  let d1 := if x2 ≤ 80 ∨ (WIDTH : ℚ) - 80 ≤ x2 then tr.pi - d0 else d0
  let d2 := if y2 ≤ 220 ∨ (HEIGHT : ℚ) - 80 ≤ y2 then -d1 else d1
  ⟨x2, y2, d2, sp, t2, sm⟩

lemma move_x (c : Chicken) (tr : Trig) (r : MoveRnd) :
    (c.move tr r).x
      = max 80 (min ((WIDTH : ℚ) - 80) (c.x + tr.cos (effDir c r) * effSpeed c r)) := rfl

lemma move_y (c : Chicken) (tr : Trig) (r : MoveRnd) :
    (c.move tr r).y
      = max 220 (min ((HEIGHT : ℚ) - 80) (c.y + tr.sin (effDir c r) * effSpeed c r)) := rfl

lemma move_direction (c : Chicken) (tr : Trig) (r : MoveRnd) :
    (c.move tr r).direction
      = if (c.move tr r).y ≤ 220 ∨ (HEIGHT : ℚ) - 80 ≤ (c.move tr r).y then
          -(if (c.move tr r).x ≤ 80 ∨ (WIDTH : ℚ) - 80 ≤ (c.move tr r).x then
              tr.pi - effDir c r
            else effDir c r)
        else
          (if (c.move tr r).x ≤ 80 ∨ (WIDTH : ℚ) - 80 ≤ (c.move tr r).x then
              tr.pi - effDir c r
            else effDir c r) := rfl

lemma move_speed (c : Chicken) (tr : Trig) (r : MoveRnd) :
    (c.move tr r).speed = effSpeed c r := rfl

lemma move_timer (c : Chicken) (tr : Trig) (r : MoveRnd) :
    (c.move tr r).step_timer
      = if c.step_max ≤ c.step_timer + 1 then 0 else c.step_timer + 1 := rfl

lemma move_stepmax (c : Chicken) (tr : Trig) (r : MoveRnd) :
    (c.move tr r).step_max
      = if c.step_max ≤ c.step_timer + 1 then r.newStepMax else c.step_max := rfl

/-- The clamped arena rectangle of `Chicken.move`:
`[80, WIDTH-80] × [220, HEIGHT-80]`, i.e. `[80, 720] × [220, 420]`. -/
def inArena (c : Chicken) : Prop :=
  80 ≤ c.x ∧ c.x ≤ (WIDTH : ℚ) - 80 ∧ 220 ≤ c.y ∧ c.y ≤ (HEIGHT : ℚ) - 80

lemma move_inArena (c : Chicken) (tr : Trig) (r : MoveRnd) :
    inArena (c.move tr r) := by
  refine ⟨?_, ?_, ?_, ?_⟩
  · rw [move_x]; exact le_max_left _ _
  · rw [move_x]
    exact max_le (by norm_num [WIDTH]) (min_le_left _ _)
  · rw [move_y]; exact le_max_left _ _
  · rw [move_y]
    exact max_le (by norm_num [HEIGHT]) (min_le_left _ _)

/-- `n` consecutive `move` steps, with fresh draws from the stream `rs`. -/
def moveIter (tr : Trig) (rs : ℕ → MoveRnd) : ℕ → Chicken → Chicken
  | 0, c => c
  | n + 1, c => (moveIter tr rs n c).move tr (rs n)

end Motion

/-- `C7`: boundary containment and reflection.  After every `move` the position
lies in the arena rectangle `[80, 720] × [220, 420]`; when the clamped position
sits on the left/right bound (and not on a top/bottom bound) the new heading is
`π` minus the heading used this tick, and on a top/bottom bound (not left/right)
it is its negation; and after any positive number of moves — 10,000 included —
the agent is still inside the rectangle. -/
theorem C7_boundary_containment (c : Chicken) (tr : Trig) (r : MoveRnd) :
    inArena (c.move tr r)
    ∧ (((c.move tr r).x ≤ 80 ∨ (WIDTH : ℚ) - 80 ≤ (c.move tr r).x) →
        ¬((c.move tr r).y ≤ 220 ∨ (HEIGHT : ℚ) - 80 ≤ (c.move tr r).y) →
        (c.move tr r).direction = tr.pi - effDir c r)
    ∧ (¬((c.move tr r).x ≤ 80 ∨ (WIDTH : ℚ) - 80 ≤ (c.move tr r).x) →
        ((c.move tr r).y ≤ 220 ∨ (HEIGHT : ℚ) - 80 ≤ (c.move tr r).y) →
        (c.move tr r).direction = -(effDir c r))
    ∧ ∀ (rs : ℕ → MoveRnd) (n : ℕ), 1 ≤ n → inArena (moveIter tr rs n c) := by
  refine ⟨move_inArena c tr r, ?_, ?_, ?_⟩
  · intro hx hy
    rw [move_direction, if_neg hy, if_pos hx]
  · intro hx hy
    rw [move_direction, if_pos hy, if_neg hx]
  · intro rs n hn
    cases n with
    | zero => omega
    | succ m => exact move_inArena (moveIter tr rs m c) tr (rs m)

/-- A trig oracle agreeing with real trigonometry at heading 0. -/
def tr0 : Trig := ⟨fun _ => 1, fun _ => 0, 314 / 100⟩

/-- One concrete retarget draw. -/
def r0 : MoveRnd := ⟨0, 1, 30⟩

/-- A chicken half a unit from the right wall, heading right at speed 1. -/
def c0 : Chicken := ⟨719.5, 300, 0, 1, 0, 60⟩

lemma move_c0_x : (Chicken.move c0 tr0 r0).x = 720 := by
  rw [move_x]
  norm_num [c0, tr0, r0, effDir, effSpeed, WIDTH]

lemma move_c0_y : (Chicken.move c0 tr0 r0).y = 300 := by
  rw [move_y]
  norm_num [c0, tr0, r0, effDir, effSpeed, HEIGHT]

/-- Witness for `C7`: the chicken `c0` reaches the right wall in one tick, its
heading is reflected to `π - heading`, and 10,000 further moves stay inside. -/
theorem C7_boundary_containment_witness :
    inArena (Chicken.move c0 tr0 r0)
    ∧ (Chicken.move c0 tr0 r0).direction = tr0.pi - effDir c0 r0
    ∧ inArena (moveIter tr0 (fun _ => r0) 10000 c0) :=
  ⟨(C7_boundary_containment c0 tr0 r0).1,
   (C7_boundary_containment c0 tr0 r0).2.1
     (Or.inr (by rw [move_c0_x]; norm_num [WIDTH]))
     (by simp only [move_c0_y]; norm_num [HEIGHT]),
   (C7_boundary_containment c0 tr0 r0).2.2.2 (fun _ => r0) 10000 (by norm_num)⟩

section TickLoop

/-- The mutable state owned by the `run_simulation` loop. -/
structure World where
  farm : FarmState
  chickens : List Chicken

/-- One tick's random draws: environment noise, per-cell scan noise, the trig
oracle and one retarget draw per chicken index. -/
structure TickRnd where
  upd : UpdNoise
  scanNoise : ℕ → ℕ → ℚ
  tr : Trig
  mv : ℕ → MoveRnd

/-- One iteration of the `run_simulation` main loop (src/main.py lines
326-430), in statement order: `state.update()` (line 332), then
`state.automation_agent()` (line 333, which notifies its first event), then
`scan_hotspots(chickens)` (line 336), then the periodic pushes, and only then —
inside the drawing block, lines 396-397 — `ch.move()` for every chicken.
Returns the new world, the hotspot list pushed this tick and the events. -/
def simTick (w : World) (r : TickRnd) : World × List Hotspot × List Event :=
  let farm1 := w.farm.update r.upd
  let ag := farm1.automation_agent
  let hotspots := scan_hotspots w.chickens r.scanNoise
  let chickens2 := w.chickens.mapIdx fun i c => c.move r.tr (r.mv i)
  (⟨ag.1, chickens2⟩, hotspots, ag.2)

end TickLoop

/-- `C8` (amended): the order of one loop iteration is environment update,
then automation decision (whose events are the tick's notifications), then
hotspot scan, then agent motion.  Hence the automation decision reads the
environment already advanced by this tick's update, while the hotspot scan
reads the chicken positions from *before* this tick's motion step (motion runs
last, during drawing). -/
theorem C8_tick_order (w : World) (r : TickRnd) :
    (simTick w r).2.1 = scan_hotspots w.chickens r.scanNoise
    ∧ (simTick w r).2.2 = ((w.farm.update r.upd).automation_agent).2
    ∧ (simTick w r).1.farm = ((w.farm.update r.upd).automation_agent).1
    ∧ (simTick w r).1.chickens = (w.chickens.mapIdx fun i c => c.move r.tr (r.mv i)) := by
  refine ⟨?_, ?_, ?_, ?_⟩ <;> simp only [simTick]

/-- The world of the `C8` scenario: the initial farm and the two chickens of
`cs10` standing at `(89.5, 300)`, half a unit left of the cell border. -/
def w8 : World := ⟨initFarm, cs10⟩

/-- Zero environment noise, zero scan noise, the `tr0` oracle, and the `r0`
retarget draw for every chicken. -/
def r8 : TickRnd := ⟨⟨0, 0, 0, 0, 0, 0, 0, 0⟩, zeroNoise, tr0, fun _ => r0⟩

/-- Where each `cs10` chicken stands after this tick's motion: one unit right,
across the cell-5/cell-6 border. -/
def c8m : Chicken := ⟨90.5, 300, 0, 1, 1, 60⟩

lemma move_c8 : Chicken.move ⟨89.5, 300, 0, 1, 0, 60⟩ tr0 r0 = c8m := by
  simp only [Chicken.move, c8m, tr0, r0, Chicken.mk.injEq]
  norm_num [WIDTH, HEIGHT]

lemma gridIndex_905 : gridIndex (90.5 : ℚ) (grid_width - 1) = 6 := by
  norm_num [gridIndex, grid_size, grid_width, WIDTH]
  decide

/-- The count grid after the motion step: all zeros except cell `(20, 6)`. -/
def g8 : List (List ℕ) :=
  (List.replicate grid_height (List.replicate grid_width 0)).set 20
    ((List.replicate grid_width 0).set 6 2)

set_option maxRecDepth 4000 in
lemma counts_c8post : chickenCounts [c8m, c8m] = g8 := by
  simp only [chickenCounts, c8m, List.foldl_cons, List.foldl_nil,
    gridIndex_905, gridIndex_300]
  decide

set_option maxRecDepth 4000 in
lemma measured_cs10 :
    measuredHotspots cs10 zeroNoise = [mkHotspot g10 zeroNoise (20, 5)] := by
  rw [measuredHotspots_eq, counts_cs10]
  rw [show (cellList.filter fun yx =>
      decide (hotspot_threshold ≤ countAt g10 yx.1 yx.2)) = [(20, 5)] from by decide]
  rfl

set_option maxRecDepth 4000 in
lemma measured_c8post :
    measuredHotspots [c8m, c8m] zeroNoise = [mkHotspot g8 zeroNoise (20, 6)] := by
  rw [measuredHotspots_eq, counts_c8post]
  rw [show (cellList.filter fun yx =>
      decide (hotspot_threshold ≤ countAt g8 yx.1 yx.2)) = [(20, 6)] from by decide]
  rfl

/-- `C8` counterexample: in the `w8` scenario the hotspot list of the tick is
the scan of the chickens' *pre-motion* positions, and it differs from the scan
of the positions the same tick's motion step produces — so the claim that the
scan reads positions already advanced by that tick's motion is false. -/
theorem C8_scan_order_counterexample :
    ¬ ((simTick w8 r8).2.1
        = scan_hotspots (simTick w8 r8).1.chickens r8.scanNoise) := by
  intro hEq
  have h1 : (simTick w8 r8).2.1 = scan_hotspots cs10 zeroNoise := by
    simp only [simTick, w8, r8]
  have h2 : (simTick w8 r8).1.chickens = [c8m, c8m] := by
    simp only [simTick, w8, r8]
    rw [show cs10.mapIdx (fun i c => c.move tr0 r0)
        = [Chicken.move ⟨89.5, 300, 0, 1, 0, 60⟩ tr0 r0,
           Chicken.move ⟨89.5, 300, 0, 1, 0, 60⟩ tr0 r0] from rfl, move_c8]
  rw [h1, h2, show r8.scanNoise = zeroNoise from rfl,
    scan_hotspots_eq, scan_hotspots_eq, measured_cs10, measured_c8post] at hEq
  have hm := List.append_cancel_left hEq
  have hAB := Option.some.inj (congrArg List.head? hm)
  have hx := congrArg Hotspot.x hAB
  norm_num [mkHotspot, grid_size, WIDTH] at hx

section Server

/-- A JSON object of numeric sensor fields, as an ordered key/value list
(Python dicts preserve insertion order and keep keys unique). -/
abbrev SensorDict := List (String × ℚ)

/-- The initial `current_data` store of src/server.py lines 23-29. -/
def current_data : SensorDict :=
  [("temperature", 27.5), ("humidity", 60), ("tankLevel", 80),
   ("feed", 65), ("light", 400)]

/-- The `EnvironmentState` schema keys: exactly the fields of `current_data`. -/
def schemaKeys : List String :=
  ["temperature", "humidity", "tankLevel", "feed", "light"]

/-- Python `d[k] = v` on an ordered dict with unique keys: replace the first
binding of `k` in place, or append a new binding at the end. -/
def setKey : SensorDict → String → ℚ → SensorDict
  | [], k, v => [(k, v)]
  | kv :: rest, k, v =>
      if kv.1 = k then (k, v) :: rest else kv :: setKey rest k v

/-- Python `d.update(data)`: assign every binding of `upd` in order. -/
def dictUpdate (d : SensorDict) (upd : SensorDict) : SensorDict :=
  upd.foldl (fun acc kv => setKey acc kv.1 kv.2) d

/-- First-match lookup (Python `d[k]` on a unique-key dict). -/
def lookupKey : SensorDict → String → Option ℚ
  | [], _ => none
  | kv :: rest, k => if kv.1 = k then some kv.2 else lookupKey rest k

/-- The value the last binding of `k` in `upd` assigns, if any. -/
def lastVal : SensorDict → String → Option ℚ
  | [], _ => none
  | kv :: rest, k =>
      match lastVal rest k with
      | some v => some v
      | none => if kv.1 = k then some kv.2 else none

/-- Embedding of the Flask `/update-sensor` handler `update_sensor_data`
(src/server.py lines 96-103): `request.get_json()` is the optional body; a
missing or empty (falsy) body leaves the store untouched; any non-empty body is
merged into the store with `dict.update`; the response is always
`200 {"status": "ok"}`. -/
def update_sensor_data (store : SensorDict) (body : Option SensorDict) :
    SensorDict × ℕ × String :=
  match body with
  | none => (store, 200, "ok")
  | some d => if d = [] then (store, 200, "ok") else (dictUpdate store d, 200, "ok")

lemma lookupKey_setKey_self (d : SensorDict) (k : String) (v : ℚ) :
    lookupKey (setKey d k v) k = some v := by
  induction d with
  | nil => simp [setKey, lookupKey]
  | cons kv rest ih =>
    by_cases h : kv.1 = k
    · simp [setKey, h, lookupKey]
    · simp [setKey, h, lookupKey, ih]

lemma lookupKey_setKey_other (d : SensorDict) (k k' : String) (v : ℚ)
    (hne : k' ≠ k) : lookupKey (setKey d k v) k' = lookupKey d k' := by
  induction d with
  | nil => simp [setKey, lookupKey, Ne.symm hne]
  | cons kv rest ih =>
    by_cases h : kv.1 = k
    · subst h
      have hx : kv.1 ≠ k' := Ne.symm hne
      simp [setKey, lookupKey, hx]
    · simp only [setKey, if_neg h]
      by_cases h2 : kv.1 = k'
      · simp [lookupKey, h2]
      · simp [lookupKey, h2, ih]

/-- `dict.update` semantics pointwise: a key assigned by the update ends at its
last assigned value; every other key keeps its old value. -/
lemma lookupKey_dictUpdate (upd : SensorDict) :
    ∀ (d : SensorDict) (k : String),
      lookupKey (dictUpdate d upd) k
        = match lastVal upd k with
          | some v => some v
          | none => lookupKey d k := by
  induction upd with
  | nil => intro d k; simp [dictUpdate, lastVal]
  | cons kv rest ih =>
    intro d k
    show lookupKey (dictUpdate (setKey d kv.1 kv.2) rest) k = _
    rw [ih]
    cases hrest : lastVal rest k with
    | some v => simp [lastVal, hrest]
    | none =>
      by_cases hk : kv.1 = k
      · subst hk
        simp [lastVal, hrest, lookupKey_setKey_self]
      · simp [lastVal, hrest, hk, lookupKey_setKey_other d kv.1 k kv.2 (Ne.symm hk)]

end Server

/-- `C9` counterexample: the body `{"bogus": 7}` has a field outside the
`EnvironmentState` schema (and is missing every required field), yet the
`/update-sensor` handler does not reject it: it merges it into the store —
changing the stored state and adding the unknown key — and answers `200 ok`. -/
theorem C9_no_validation_counterexample :
    (update_sensor_data current_data (some [("bogus", 7)])).1 ≠ current_data
    ∧ ¬ ("bogus" ∈ schemaKeys)
    ∧ lookupKey (update_sensor_data current_data (some [("bogus", 7)])).1 "bogus" = some 7
    ∧ (update_sensor_data current_data (some [("bogus", 7)])).2 = (200, "ok") := by
  have hstore : (update_sensor_data current_data (some [("bogus", 7)])).1
      = current_data ++ [("bogus", 7)] := by
    simp [update_sensor_data, dictUpdate, current_data, setKey]
  refine ⟨?_, by decide, ?_, rfl⟩
  · rw [hstore]
    intro hEq
    have hlen := congrArg List.length hEq
    simp [current_data] at hlen
  · rw [hstore]
    decide

/-- `C9` (amended): the `/update-sensor` handler never rejects: any non-empty
JSON body is merged into the stored sensor state by `dict.update` — every
provided key (schema or not) takes its last provided value, every other stored
key is unchanged — and the response is always `200 {"status": "ok"}`; only a
missing or empty body leaves the store untouched. -/
theorem C9_merge_semantics (store : SensorDict) (d : SensorDict) (k : String)
    (hne : d ≠ []) :
    (update_sensor_data store (some d)).2 = (200, "ok")
    ∧ (update_sensor_data store none).1 = store
    ∧ lookupKey (update_sensor_data store (some d)).1 k
        = (match lastVal d k with
           | some v => some v
           | none => lookupKey store k) := by
  refine ⟨?_, rfl, ?_⟩
  · simp only [update_sensor_data]
    rw [if_neg hne]
  · simp only [update_sensor_data]
    rw [if_neg hne]
    exact lookupKey_dictUpdate d store k

/-- Witness for `C9` (amended): merging `{"bogus": 7}` into the initial store
answers 200 and stores the unknown key. -/
theorem C9_merge_semantics_witness :
    (update_sensor_data current_data (some [("bogus", 7)])).2 = (200, "ok")
    ∧ lookupKey (update_sensor_data current_data (some [("bogus", 7)])).1 "bogus"
        = (match lastVal [(("bogus" : String), (7 : ℚ))] "bogus" with
           | some v => some v
           | none => lookupKey current_data "bogus") :=
  ⟨(C9_merge_semantics current_data [("bogus", 7)] "bogus" (by decide)).1,
   (C9_merge_semantics current_data [("bogus", 7)] "bogus" (by decide)).2.2⟩
